import Mathlib

/-!
Shallow embedding of `src/check_genomes.py`, a command-line utility that
invokes the external `datasets` tool for a species name, decodes its JSON
standard output, and reports a genome count or a failure.

Modelling conventions:
* Python values decoded by `json.loads` are the inductive `JVal`; integral
  JSON numbers decode to Python `int` (`jint`), numbers written with a
  fraction or exponent decode to Python `float` (`jfloat`, modelled as a
  rational; non-finite floats are out of scope), and a JSON object is the
  association list of its members, later members shadowing earlier ones as
  in CPython.
* The child-process invocation (`subprocess.run`) is modelled by passing in
  a `LaunchResult`: either a captured `ExecOutcome`, the
  `FileNotFoundError` branch, or any other launch exception with its text.
  Inside `ExecOutcome`, `stdoutJson` models the result of
  `json.loads(stdout)` (`none` iff `json.JSONDecodeError`).
* The numeric result is carried as `Option ℚ` rather than `Option Int` so
  that integrality of every returned value is a provable property of the
  code, not an artefact of the chosen type.
* Messages printed to standard error are modelled structurally by the
  inductive `Diag`, each constructor carrying exactly the data interpolated
  into the corresponding `print(..., file=sys.stderr)` call.
-/

/-- A Python value as produced by `json.loads`. -/
inductive JVal where
  | jnull
  | jbool (b : Bool)
  | jint (n : Int)
  | jfloat (q : ℚ)
  | jstr (s : String)
  | jarr (xs : List JVal)
  | jobj (kvs : List (String × JVal))

/-- Python whitespace as recognised by `str.strip()` and `int()` on strings
(ASCII subset; exotic Unicode space characters are not modelled). -/
def isPySpace (c : Char) : Bool :=
  c = ' ' || c = '\t' || c = '\n' || c = '\r' || c = '\x0b' || c = '\x0c'

/-- Python `str.strip()`: remove leading and trailing whitespace. -/
def pyStrip (s : String) : String :=
  String.mk (((s.data.dropWhile isPySpace).reverse.dropWhile isPySpace).reverse)

/-- `not result.stdout.strip()` from line 58: true iff the text is empty or
whitespace-only. -/
def isBlank (s : String) : Bool :=
  pyStrip s = ""

/-- Decimal value of a digit list. -/
def natOfDigits (cs : List Char) : Nat :=
  cs.foldl (fun a c => 10 * a + (c.toNat - 48)) 0

/-- Python `int()` applied to a `str`: optional surrounding whitespace, an
optional sign, then at least one decimal digit; anything else raises
`ValueError` (`none`).  Underscore digit grouping and non-ASCII digits are
not modelled. -/
def pyStrToInt (s : String) : Option Int :=
  let t := ((s.data.dropWhile isPySpace).reverse.dropWhile isPySpace).reverse
  match t with
  | '-' :: rest =>
      if rest ≠ [] && rest.all Char.isDigit then some (-(natOfDigits rest : Int)) else none
  | '+' :: rest =>
      if rest ≠ [] && rest.all Char.isDigit then some (natOfDigits rest : Int) else none
  | rest =>
      if rest ≠ [] && rest.all Char.isDigit then some (natOfDigits rest : Int) else none

/-- Truncation toward zero, the behaviour of Python `int()` on a finite
`float`. -/
def ratTrunc (q : ℚ) : Int :=
  q.num.tdiv q.den

/-- Python `int(v)` on a decoded JSON value: identity on `int`, `0`/`1` on
`bool`, truncation on `float`, string parsing on `str`, and `TypeError`
(`none`) on `None`, lists and dicts. -/
def pyIntOf : JVal → Option Int
  | .jint n => some n
  | .jbool b => some (if b then 1 else 0)
  | .jfloat q => some (ratTrunc q)
  | .jstr s => pyStrToInt s
  | .jnull => none
  | .jarr _ => none
  | .jobj _ => none

/-- Python `dict.get(key, dflt)` on the association list of a decoded JSON
object; the last binding of a key wins, as in `json.loads`. -/
def dictGet (kvs : List (String × JVal)) (key : String) (dflt : JVal) : JVal :=
  (kvs.reverse.lookup key).getD dflt

/-- The Python type name of a decoded value, used in the `AttributeError`
text when `.get` is called on a non-dict. -/
def pyTypeName : JVal → String
  | .jnull => "NoneType"
  | .jbool _ => "bool"
  | .jint _ => "int"
  | .jfloat _ => "float"
  | .jstr _ => "str"
  | .jarr _ => "list"
  | .jobj _ => "dict"

/-- The record captured by `subprocess.run(command, capture_output=True,
text=True, check=False)`, extended with `stdoutJson`, the modelled result of
`json.loads(stdout)` (`none` iff decoding raises `json.JSONDecodeError`). -/
structure ExecOutcome where
  returncode : Int
  stdout : String
  stdoutJson : Option JVal
  stderrText : String

/-- What launching the child process can do: complete with a captured
outcome, raise `FileNotFoundError` (lines 95-99), or raise any other
exception, reaching the generic handler of lines 100-102. -/
inductive LaunchResult where
  | ok (r : ExecOutcome)
  | fileNotFound
  | otherError (msg : String)

/-- One diagnostic message printed to standard error, each constructor
carrying the data interpolated into the corresponding `print` call. -/
inductive Diag where
  /-- Lines 51-54: command line, return code and stripped stderr of a
  non-zero exit. -/
  | nonzeroExit (command : List String) (returncode : Int) (stderrText : String)
  /-- Lines 59-60: no output received; the species name may be misspelled
  or have no matching assemblies. -/
  | emptyOutput (speciesName : String)
  /-- Line 73: `total_count` was not an integer; shows the value. -/
  | notIntWarning (value : JVal)
  /-- Line 78: the value could not be converted to an integer. -/
  | couldNotConvert
  /-- Lines 82-83: JSON decoding failed; shows the raw stdout text. -/
  | jsonDecodeError (rawOutput : String)
  /-- Lines 96-98: the datasets executable was not found on the path. -/
  | fileNotFoundDiag
  /-- Line 101: the generic `except Exception` handler, with the
  exception text. -/
  | unexpectedError (msg : String)

/-- Lines 29-38: the fixed argument vector handed to `subprocess.run`.  It
is a list of separate argument tokens (no shell is involved), fully
determined by the species name, which occupies one slot. -/
def buildCommand (species_name : String) : List String :=
  ["datasets", "summary", "genome", "taxon", species_name,
   "--report", "counts", "--assembly-level", "complete",
   "--assembly-source", "RefSeq"]

/-- Lines 66-93 given the decoded document `data`:
`count = data.get('total_count', 0)`; return it if `isinstance(count, int)`
(which includes `bool`), otherwise warn and try `int(count)`, returning `0`
on `ValueError`/`TypeError`.  When `data` is not a dict, `.get` raises
`AttributeError`, which escapes the inner `try` (whose handlers catch only
`json.JSONDecodeError` and `KeyError`) and lands in the generic
`except Exception` of lines 100-102.  The `except KeyError` fallback of
lines 85-93 is unreachable: `dict.get` with a default never raises
`KeyError`, and nothing else in the inner body can. -/
def interpretDecoded (data : JVal) : Option ℚ × List Diag :=
  match data with
  | .jobj kvs =>
      let count := dictGet kvs "total_count" (.jint 0)
      match count with
      | .jint n => (some (n : ℚ), [])
      | .jbool b => (some (if b then 1 else 0), [])
      | v =>
          match pyIntOf v with
          | some n => (some (n : ℚ), [.notIntWarning v])
          | none => (some 0, [.notIntWarning v, .couldNotConvert])
  | v => (none, [.unexpectedError (pyTypeName v ++ " object has no attribute get")])

/-- Lines 90-92, the dead zero-match fallback of the unreachable `KeyError`
handler, recorded for reference: count 0 when `data.get("count", 0) == 0`
and `data.get("reports")` is falsy, otherwise `None`.  Nothing calls it. -/
def deadKeyErrorFallback (kvs : List (String × JVal)) : Option ℚ :=
  let countField := dictGet kvs "count" (.jint 0)
  let reports := dictGet kvs "reports" .jnull
  let countIsZero := match countField with
    | .jint n => n = 0
    | .jbool b => b = false
    | _ => false
  let reportsFalsy := match reports with
    | .jnull => true
    | .jbool b => !b
    | .jint n => n = 0
    | .jfloat q => q = 0
    | .jstr s => s = ""
    | .jarr xs => xs.isEmpty
    | .jobj kvs2 => kvs2.isEmpty
  if countIsZero && reportsFalsy then some 0 else none

/-- `check_genome_count` (lines 14-102), with the behaviour of the child
process supplied as `launch`.  Returns the numeric result (`none` models the
Python `None` error marker) together with the diagnostics printed to
standard error, in order. -/
def check_genome_count (species_name : String) (launch : LaunchResult) :
    Option ℚ × List Diag :=
  match launch with
  | .fileNotFound => (none, [.fileNotFoundDiag])
  | .otherError msg => (none, [.unexpectedError msg])
  | .ok result =>
      if result.returncode ≠ 0 then
        (none, [.nonzeroExit (buildCommand species_name) result.returncode
                  (pyStrip result.stderrText)])
      else if isBlank result.stdout then
        (some 0, [.emptyOutput species_name])
      else
        match result.stdoutJson with
        | none => (none, [.jsonDecodeError result.stdout])
        | some data => interpretDecoded data

/-- `main` (lines 104-128) reduced to its exit status: 0 when
`check_genome_count` returned a number (even 0), 1 when it returned the
error marker. -/
def mainExitCode (species_name : String) (launch : LaunchResult) : Nat :=
  match (check_genome_count species_name launch).1 with
  | some _ => 0
  | none => 1

/-- Sample outcome used below: exit 0 and a JSON object with `reports`
present and `count` absent, but no `total_count`. -/
def sampleNoTotal : ExecOutcome :=
  { returncode := 0
    stdout := "x"
    stdoutJson := some (.jobj [("reports", .jarr [.jnull]), ("count", .jint 5)])
    stderrText := "" }

/-- Sample outcome used below: exit 0 and a JSON object whose `total_count`
is the negative integer -5. -/
def sampleNegative : ExecOutcome :=
  { returncode := 0
    stdout := "x"
    stdoutJson := some (.jobj [("total_count", .jint (-5))])
    stderrText := "" }

/-- Shared reduction: with exit status 0, non-blank stdout and a decoded
document, `check_genome_count` is the interpretation of the document. -/
theorem check_reduces_to_interpret (species : String) (r : ExecOutcome) (data : JVal)
    (hrc : r.returncode = 0) (hb : isBlank r.stdout = false)
    (hj : r.stdoutJson = some data) :
    check_genome_count species (.ok r) = interpretDecoded data := by
  simp [check_genome_count, hrc, hb, hj]

/-- Shared helper: whenever the interpretation of a decoded document yields
the error marker, at least one diagnostic accompanies it. -/
theorem interpret_error_diag (data : JVal)
    (h : (interpretDecoded data).1 = none) : (interpretDecoded data).2 ≠ [] := by
  cases data with
  | jobj kvs =>
      cases hc : dictGet kvs "total_count" (.jint 0) with
      | jstr s => cases hps : pyStrToInt s <;>
          simp [interpretDecoded, hc, pyIntOf, hps] at h
      | jint n => simp [interpretDecoded, hc] at h
      | jbool b => simp [interpretDecoded, hc] at h
      | jnull => simp [interpretDecoded, hc, pyIntOf] at h
      | jfloat q => simp [interpretDecoded, hc, pyIntOf] at h
      | jarr xs => simp [interpretDecoded, hc, pyIntOf] at h
      | jobj kvs2 => simp [interpretDecoded, hc, pyIntOf] at h
  | jnull => simp [interpretDecoded]
  | jbool b => simp [interpretDecoded]
  | jint n => simp [interpretDecoded]
  | jfloat q => simp [interpretDecoded]
  | jstr s => simp [interpretDecoded]
  | jarr xs => simp [interpretDecoded]

/-- C1 fails on the code: with `reports` present and `count` non-zero and no
`total_count`, the claim demands the error marker, but the program returns
count 0 with no diagnostic, because `data.get('total_count', 0)` defaults to
0 instead of raising. -/
theorem C1_counterexample :
    check_genome_count "Escherichia coli" (.ok sampleNoTotal) = (some 0, []) ∧
    (check_genome_count "Escherichia coli" (.ok sampleNoTotal)).1 ≠ none := by
  refine ⟨rfl, ?_⟩
  intro h
  exact Option.noConfusion h

/-- C1 amended: for every execution outcome with exit status 0 whose
non-blank stdout decodes as a JSON object with no `total_count` field, the
result is count 0 with no diagnostic, whatever the `count` and `reports`
fields hold; the unexpected-format error branch is unreachable. -/
theorem C1_missing_total_count (species : String) (r : ExecOutcome)
    (kvs : List (String × JVal))
    (hrc : r.returncode = 0)
    (hb : isBlank r.stdout = false)
    (hj : r.stdoutJson = some (.jobj kvs))
    (hk : kvs.reverse.lookup "total_count" = none) :
    check_genome_count species (.ok r) = (some 0, []) := by
  rw [check_reduces_to_interpret species r _ hrc hb hj]
  simp [interpretDecoded, dictGet, hk]

/-- Sample outcome used below: exit 0 and a JSON object carrying only a
zero `count` field, no `total_count`. -/
def sampleCountOnly : ExecOutcome :=
  { returncode := 0
    stdout := "y"
    stdoutJson := some (.jobj [("count", .jint 0)])
    stderrText := "" }

/-- Witness for C1 amended at a concrete outcome. -/
theorem C1_missing_total_count_witness :
    check_genome_count "x" (.ok sampleCountOnly) = (some 0, []) :=
  C1_missing_total_count "x" _ _ rfl rfl rfl rfl

/-- C2 fails on the code: when the decoded `total_count` is the integer -5,
the program returns -5, a negative value, because `isinstance(count, int)`
admits it unchecked. -/
theorem C2_counterexample :
    check_genome_count "x" (.ok sampleNegative) = (some (-5 : ℚ), []) ∧
    (-5 : ℚ) < 0 := by
  constructor
  · rfl
  · norm_num

/-- C2 amended: the genome count result is either the error marker or an
integer -- never fractional, since non-integer values are truncated by
`int()` or replaced by 0 -- but it can be negative when `total_count` holds
a negative integer. -/
theorem C2_integral (species : String) (launch : LaunchResult) (q : ℚ)
    (h : (check_genome_count species launch).1 = some q) : q.den = 1 := by
  cases launch with
  | fileNotFound => simp [check_genome_count] at h
  | otherError m => simp [check_genome_count] at h
  | ok r =>
      by_cases hrc : r.returncode ≠ 0
      · simp [check_genome_count, hrc] at h
      · cases hb : isBlank r.stdout with
        | true =>
            simp [check_genome_count, hrc, hb] at h
            simp [← h]
        | false =>
            cases hj : r.stdoutJson with
            | none => simp [check_genome_count, hrc, hb, hj] at h
            | some data =>
                rw [check_reduces_to_interpret species r data (by omega) hb hj] at h
                cases data with
                | jobj kvs =>
                    cases hc : dictGet kvs "total_count" (.jint 0) with
                    | jint n =>
                        simp [interpretDecoded, hc] at h
                        simp [← h]
                    | jbool b =>
                        cases b <;> simp [interpretDecoded, hc] at h <;> simp [← h]
                    | jstr s =>
                        cases hps : pyStrToInt s with
                        | none =>
                            simp [interpretDecoded, hc, pyIntOf, hps] at h
                            simp [← h]
                        | some n =>
                            simp [interpretDecoded, hc, pyIntOf, hps] at h
                            simp [← h]
                    | jfloat q2 =>
                        simp [interpretDecoded, hc, pyIntOf] at h
                        simp [← h]
                    | jnull =>
                        simp [interpretDecoded, hc, pyIntOf] at h
                        simp [← h]
                    | jarr xs =>
                        simp [interpretDecoded, hc, pyIntOf] at h
                        simp [← h]
                    | jobj kvs2 =>
                        simp [interpretDecoded, hc, pyIntOf] at h
                        simp [← h]
                | jnull => simp [interpretDecoded] at h
                | jbool b => simp [interpretDecoded] at h
                | jint n => simp [interpretDecoded] at h
                | jfloat q2 => simp [interpretDecoded] at h
                | jstr s => simp [interpretDecoded] at h
                | jarr xs => simp [interpretDecoded] at h

/-- Witness for C2 amended at a concrete outcome. -/
theorem C2_integral_witness : ((-5 : ℚ)).den = 1 :=
  C2_integral "x" (.ok sampleNegative) (-5) rfl

/-- Sample outcome used below: exit 0 and `{"total_count": 1523}`. -/
def sampleCount1523 : ExecOutcome :=
  { returncode := 0
    stdout := "j"
    stdoutJson := some (.jobj [("total_count", .jint 1523)])
    stderrText := "" }

/-- C3: with exit status 0 and a decoded JSON object containing
`total_count`, an integer value is returned as-is, a string value parsing
as an integer is returned converted (after the non-integer warning), a
value that `int()` rejects yields count 0 with the warning and the
conversion-failure diagnostic, and the error marker is never produced. -/
theorem C3_total_count_present (species : String) (r : ExecOutcome)
    (kvs : List (String × JVal)) (v : JVal)
    (hrc : r.returncode = 0)
    (hb : isBlank r.stdout = false)
    (hj : r.stdoutJson = some (.jobj kvs))
    (hv : kvs.reverse.lookup "total_count" = some v) :
    (∀ n : Int, v = .jint n →
      check_genome_count species (.ok r) = (some (n : ℚ), [])) ∧
    (∀ (s : String) (n : Int), v = .jstr s → pyStrToInt s = some n →
      check_genome_count species (.ok r) = (some (n : ℚ), [.notIntWarning v])) ∧
    (pyIntOf v = none →
      check_genome_count species (.ok r)
        = (some 0, [.notIntWarning v, .couldNotConvert])) ∧
    (check_genome_count species (.ok r)).1 ≠ none := by
  have key : check_genome_count species (.ok r) = interpretDecoded (.jobj kvs) :=
    check_reduces_to_interpret species r _ hrc hb hj
  have hd : dictGet kvs "total_count" (.jint 0) = v := by
    simp [dictGet, hv]
  refine ⟨?_, ?_, ?_, ?_⟩
  · rintro n rfl
    rw [key]
    simp [interpretDecoded, hd]
  · rintro s n rfl hs
    rw [key]
    simp [interpretDecoded, hd, pyIntOf, hs]
  · intro hnone
    rw [key]
    cases v with
    | jint n => simp [pyIntOf] at hnone
    | jbool b => simp [pyIntOf] at hnone
    | jfloat q => simp [pyIntOf] at hnone
    | jstr s =>
        simp [pyIntOf] at hnone
        simp [interpretDecoded, hd, pyIntOf, hnone]
    | jnull => simp [interpretDecoded, hd, pyIntOf]
    | jarr xs => simp [interpretDecoded, hd, pyIntOf]
    | jobj kvs2 => simp [interpretDecoded, hd, pyIntOf]
  · rw [key]
    cases v with
    | jint n => simp [interpretDecoded, hd]
    | jbool b => simp [interpretDecoded, hd]
    | jstr s => cases hps : pyStrToInt s <;>
        simp [interpretDecoded, hd, pyIntOf, hps]
    | jfloat q => simp [interpretDecoded, hd, pyIntOf]
    | jnull => simp [interpretDecoded, hd, pyIntOf]
    | jarr xs => simp [interpretDecoded, hd, pyIntOf]
    | jobj kvs2 => simp [interpretDecoded, hd, pyIntOf]

/-- Witness for C3 at a concrete outcome with an integer `total_count`. -/
theorem C3_witness :
    check_genome_count "Escherichia coli" (.ok sampleCount1523)
      = (some 1523, []) :=
  (C3_total_count_present "Escherichia coli" sampleCount1523
    [("total_count", .jint 1523)] (.jint 1523) rfl rfl rfl rfl).1 1523 rfl

/-- C4: the process exit status is 0 exactly when a count was determined
(including zero) and 1 exactly when the result is the error marker, and the
missing-executable launch fault exits 1. -/
theorem C4_exit_code (species : String) (launch : LaunchResult) :
    (mainExitCode species launch = 0 ↔
      (check_genome_count species launch).1 ≠ none) ∧
    (mainExitCode species launch = 1 ↔
      (check_genome_count species launch).1 = none) ∧
    mainExitCode species .fileNotFound = 1 := by
  refine ⟨?_, ?_, rfl⟩ <;>
    unfold mainExitCode <;>
    cases hc : (check_genome_count species launch).1 <;> simp [hc]

/-- Witness for C4: the missing-executable case exits 1. -/
theorem C4_witness : mainExitCode "x" .fileNotFound = 1 :=
  (C4_exit_code "x" .fileNotFound).2.2

/-- C5: with exit status 0 and blank stdout, the result is count 0 together
with the advisory diagnostic that the species name may be misspelled or
have no matching assemblies. -/
theorem C5_blank_stdout (species : String) (r : ExecOutcome)
    (hrc : r.returncode = 0) (hb : isBlank r.stdout = true) :
    check_genome_count species (.ok r) = (some 0, [.emptyOutput species]) := by
  simp [check_genome_count, hrc, hb]

/-- Sample outcome used below: exit 0 with whitespace-only stdout. -/
def sampleBlank : ExecOutcome :=
  { returncode := 0
    stdout := "  "
    stdoutJson := none
    stderrText := "" }

/-- Witness for C5 at a concrete outcome. -/
theorem C5_witness :
    check_genome_count "Nonexistent species" (.ok sampleBlank)
      = (some 0, [.emptyOutput "Nonexistent species"]) :=
  C5_blank_stdout "Nonexistent species" _ rfl rfl

/-- C6: any non-zero exit status yields the error marker with a diagnostic
carrying the full command line, the exit status and the (stripped) captured
stderr text; the right-hand side mentions no stdout field, so the branch is
independent of standard output. -/
theorem C6_nonzero_exit (species : String) (r : ExecOutcome)
    (hrc : r.returncode ≠ 0) :
    check_genome_count species (.ok r) =
      (none, [.nonzeroExit (buildCommand species) r.returncode
                (pyStrip r.stderrText)]) := by
  simp [check_genome_count, hrc]

/-- Sample outcome used below: exit 1 with diagnostic text on stderr. -/
def sampleFailed : ExecOutcome :=
  { returncode := 1
    stdout := "ignored"
    stdoutJson := none
    stderrText := "boom" }

/-- Witness for C6 at a concrete outcome. -/
theorem C6_witness :
    check_genome_count "x" (.ok sampleFailed)
      = (none, [.nonzeroExit (buildCommand "x") 1 "boom"]) :=
  C6_nonzero_exit "x" sampleFailed (by decide)

/-- C7: exit status 0 with non-blank stdout that fails to decode yields the
error marker with a diagnostic carrying the raw stdout text. -/
theorem C7_decode_failure (species : String) (r : ExecOutcome)
    (hrc : r.returncode = 0) (hb : isBlank r.stdout = false)
    (hj : r.stdoutJson = none) :
    check_genome_count species (.ok r) = (none, [.jsonDecodeError r.stdout]) := by
  simp [check_genome_count, hrc, hb, hj]

/-- Sample outcome used below: exit 0 with stdout that is not JSON. -/
def sampleNotJson : ExecOutcome :=
  { returncode := 0
    stdout := "not json"
    stdoutJson := none
    stderrText := "" }

/-- Witness for C7 at a concrete outcome. -/
theorem C7_witness :
    check_genome_count "x" (.ok sampleNotJson)
      = (none, [.jsonDecodeError "not json"]) :=
  C7_decode_failure "x" sampleNotJson rfl rfl rfl

/-- C8: the command invocation is the fixed argument vector determined by
the species name alone, with the species name occupying exactly the single
argument slot at index 4; the vector is passed as separate tokens, so no
shell interpretation can split or reinterpret it. -/
theorem C8_command_vector (species : String) :
    buildCommand species =
      ["datasets", "summary", "genome", "taxon", species, "--report",
       "counts", "--assembly-level", "complete", "--assembly-source",
       "RefSeq"] ∧
    (buildCommand species).length = 11 ∧
    (buildCommand species)[4]? = some species :=
  ⟨rfl, rfl, rfl⟩

/-- C9: the checker is total over every launch result: the entry point only
ever exits 0 or 1, every error-marker result carries at least one
diagnostic, and the missing-executable and generic launch-fault branches
each produce the error marker with their diagnostic. -/
theorem C9_totality (species : String) (launch : LaunchResult) :
    (mainExitCode species launch = 0 ∨ mainExitCode species launch = 1) ∧
    ((check_genome_count species launch).1 = none →
      (check_genome_count species launch).2 ≠ []) ∧
    check_genome_count species .fileNotFound = (none, [.fileNotFoundDiag]) ∧
    (∀ msg, check_genome_count species (.otherError msg)
      = (none, [.unexpectedError msg])) := by
  refine ⟨?_, ?_, rfl, fun msg => rfl⟩
  · unfold mainExitCode
    cases (check_genome_count species launch).1 <;> simp
  · intro h
    cases launch with
    | fileNotFound => simp [check_genome_count]
    | otherError m => simp [check_genome_count]
    | ok r =>
        by_cases hrc : r.returncode ≠ 0
        · simp [check_genome_count, hrc]
        · cases hb : isBlank r.stdout with
          | true => simp [check_genome_count, hrc, hb] at h
          | false =>
              cases hj : r.stdoutJson with
              | none => simp [check_genome_count, hrc, hb, hj]
              | some data =>
                  have key : check_genome_count species (.ok r)
                      = interpretDecoded data :=
                    check_reduces_to_interpret species r data (by omega) hb hj
                  rw [key] at h ⊢
                  exact interpret_error_diag data h

/-- Witness for C9 at the missing-executable launch fault. -/
theorem C9_witness :
    (check_genome_count "x" LaunchResult.fileNotFound).2 ≠ [] :=
  (C9_totality "x" LaunchResult.fileNotFound).2.1 rfl

/-- C10: exit status 0 with non-blank stdout decoding to a non-object JSON
value makes `.get` raise `AttributeError`, which only the generic
`except Exception` handler catches: the result is the error marker with the
single generic diagnostic, not the decode-failure or missing-field one. -/
theorem C10_non_object_json (species : String) (r : ExecOutcome) (v : JVal)
    (hrc : r.returncode = 0) (hb : isBlank r.stdout = false)
    (hj : r.stdoutJson = some v) (hv : ∀ kvs, v ≠ .jobj kvs) :
    check_genome_count species (.ok r) =
      (none, [.unexpectedError (pyTypeName v ++ " object has no attribute get")]) := by
  rw [check_reduces_to_interpret species r v hrc hb hj]
  cases v with
  | jobj kvs => exact absurd rfl (hv kvs)
  | jnull => rfl
  | jbool b => rfl
  | jint n => rfl
  | jfloat q => rfl
  | jstr s => rfl
  | jarr xs => rfl

/-- Sample outcome used below: exit 0 with stdout decoding to a top-level
JSON array. -/
def sampleArray : ExecOutcome :=
  { returncode := 0
    stdout := "j"
    stdoutJson := some (.jarr [])
    stderrText := "" }

/-- Witness for C10 at a concrete outcome with a top-level array. -/
theorem C10_witness :
    check_genome_count "x" (.ok sampleArray)
      = (none, [.unexpectedError "list object has no attribute get"]) :=
  C10_non_object_json "x" sampleArray (.jarr []) rfl rfl rfl
    (fun _ h => JVal.noConfusion h)
